import Mathlib

set_option linter.unusedVariables false

/-!
Verification of the bulk-analysis orchestrator of cortex-mcp
(`src/tools/bulk.ts`, tool `cortex_analyze_observable`), against the
natural-language specification.

The TypeScript source is shallowly embedded: each stage of the pipeline
(capability filter, concurrent submission via `Promise.allSettled`,
concurrent completion wait via `Promise.allSettled`, aggregation) becomes a
pure Lean function.  `Promise.allSettled` is modelled by an outcome oracle
`Nat → Except String _` giving the settlement of the i-th concurrent call;
`allSettled` guarantees the result array is in input order, which the
embedding reflects by pairing the i-th input with outcome i.
-/

/-- Severity level of a taxonomy entry.  The TypeScript source declares the
closed string union `"info" | "safe" | "suspicious" | "malicious"`
(`src/types.ts`, `Taxonomy.level`). -/
inductive TaxonomyLevel where
  | info
  | safe
  | suspicious
  | malicious
deriving Repr, DecidableEq, BEq

/-- Runtime string value of a severity level (the literal of the TS union). -/
def TaxonomyLevel.str : TaxonomyLevel → String
  | .info => "info"
  | .safe => "safe"
  | .suspicious => "suspicious"
  | .malicious => "malicious"

/-- Job status, the closed string union of `src/types.ts` (`Job.status`). -/
inductive JobStatus where
  | Waiting
  | InProgress
  | Success
  | Failure
  | Deleted
deriving Repr, DecidableEq, BEq

/-- Runtime string value of a job status (the literal of the TS union). -/
def JobStatus.str : JobStatus → String
  | .Waiting => "Waiting"
  | .InProgress => "InProgress"
  | .Success => "Success"
  | .Failure => "Failure"
  | .Deleted => "Deleted"

/-- The `Taxonomy` interface of `src/types.ts`: one finding emitted by an
analyzer (severity level, namespace, predicate, value). -/
structure Taxonomy where
  level : TaxonomyLevel
  «namespace» : String
  predicate : String
  value : String
deriving Repr, DecidableEq, BEq

/-- The `Analyzer` interface of `src/types.ts`, restricted to its required
fields; the optional metadata fields (`cortexIds`, `rate`, `maxTlp`, ...)
are not read anywhere by the tool under verification and are omitted. -/
structure Analyzer where
  id : String
  name : String
  version : String
  description : String
  dataTypeList : List String
deriving Repr, DecidableEq, BEq

/-- The `Job` interface of `src/types.ts`, restricted to the fields the
bulk tool reads (`job.id`; `status` is required in TS).  The remaining
optional fields are never read by `bulk.ts` and are omitted. -/
structure Job where
  id : String
  status : JobStatus
deriving Repr, DecidableEq, BEq

/-- The `ReportSummary` interface of `src/types.ts`: `taxonomies?: Taxonomy[]`. -/
structure ReportSummary where
  taxonomies : Option (List Taxonomy)
deriving Repr, DecidableEq, BEq

/-- The inline object type of `JobReport.report` in `src/types.ts`
(`summary?`, `success?`; `full` and `artifacts` are never read by the bulk
tool and are omitted). -/
structure ReportBody where
  summary : Option ReportSummary
  success : Option Bool
deriving Repr, DecidableEq, BEq

/-- The `JobReport` interface of `src/types.ts` (`Job` extended with the
optional `report` object), restricted to the fields the bulk tool reads. -/
structure JobReport where
  id : String
  status : JobStatus
  report : Option ReportBody
deriving Repr, DecidableEq, BEq

/-- One fulfilled submission, `{ analyzer: analyzer.name, jobId: job.id }`
(`bulk.ts` line 68). -/
structure Submitted where
  analyzer : String
  jobId : String
deriving Repr, DecidableEq, BEq

/-- One entry of the `failed` list, `{ analyzer, error }` (`bulk.ts`
lines 83-86). -/
structure SubmissionError where
  analyzer : String
  error : String
deriving Repr, DecidableEq, BEq

/-- One fulfilled completion wait, `{ analyzer, report }` (`bulk.ts`
line 92). -/
structure WaitResult where
  analyzer : String
  report : JobReport
deriving Repr, DecidableEq, BEq

/-- One entry of the aggregated `results` list (`bulk.ts` lines 98-102). -/
structure ResultEntry where
  analyzer : String
  status : String
  taxonomies : List String
deriving Repr, DecidableEq, BEq

/-- The `levelCounts` summary object (`bulk.ts` lines 132-139). -/
structure LevelCounts where
  malicious : Nat
  suspicious : Nat
  info : Nat
  safe : Nat
deriving Repr, DecidableEq, BEq

/-- The echoed observable, `{ dataType, data }` (`bulk.ts` line 147). -/
structure Observable where
  dataType : String
  data : String
deriving Repr, DecidableEq, BEq

/-- The JSON object serialized on success (`bulk.ts` lines 145-157).
`submissionErrors` is an `Option` because `JSON.stringify` drops a field
whose value is `undefined`: `none` models the field being absent from the
serialized output. -/
structure AggregateReport where
  observable : Observable
  analyzersRun : Nat
  analyzersFailed : Nat
  summary : LevelCounts
  results : List ResultEntry
  submissionErrors : Option (List SubmissionError)
deriving Repr, DecidableEq, BEq

/-- Shape of the tool's response: a success response carrying the
serialized `AggregateReport`, the plain-text "No analyzers found" response,
or the `isError: true` response of the catch block (`bulk.ts`
lines 48-57, 141-160, 161-171). -/
inductive ToolResponse where
  | report (r : AggregateReport)
  | text (s : String)
  | error (s : String)
deriving Repr, DecidableEq, BEq

/-- A network call issued to the Cortex client by the bulk tool (besides
the initial `listAnalyzers` directory lookup): a `runAnalyzer` submission
keyed by analyzer id, or a `waitAndGetReport` keyed by job id. -/
inductive Call where
  | submit (analyzerId : String)
  | wait (jobId : String)
deriving Repr, DecidableEq, BEq

/-- Step 1 filter (`bulk.ts` lines 44-46):
`allAnalyzers.filter((a) => a.dataTypeList.includes(dataType))`. -/
def applicable (allAnalyzers : List Analyzer) (dataType : String) : List Analyzer :=
  allAnalyzers.filter (fun a => a.dataTypeList.contains dataType)

/-- Value of a fulfilled settlement, `none` on a rejected one. -/
def exOk {α : Type} : Except String α → Option α
  | .ok a => some a
  | .error _ => none

/-- Rejection reason of a rejected settlement, `none` on a fulfilled one. -/
def exErr {α : Type} : Except String α → Option String
  | .ok _ => none
  | .error e => some e

/-- Step 2 fan-out (`bulk.ts` lines 60-70): one `runAnalyzer` call per
applicable analyzer; `Promise.allSettled` returns the settlements in input
order.  `submitRes i` is the settlement of the i-th call: on fulfillment
the job returned by the provider, on rejection the error message
(`r.reason` rendered as a string).  The fulfilled value is
`{ analyzer: analyzer.name, jobId: job.id }`. -/
def submissionsAux (submitRes : Nat → Except String Job) :
    Nat → List Analyzer → List (Except String Submitted)
  | _, [] => []
  | i, a :: rest =>
      ((submitRes i).map fun job => { analyzer := a.name, jobId := job.id }) ::
        submissionsAux submitRes (i + 1) rest

/-- The settled `submissions` array (`bulk.ts` line 60). -/
def submissions (apl : List Analyzer) (submitRes : Nat → Except String Job) :
    List (Except String Submitted) :=
  submissionsAux submitRes 0 apl

/-- The `submitted` list (`bulk.ts` lines 72-77): keep the fulfilled
settlements, in order, and take their values. -/
def submitted (subs : List (Except String Submitted)) : List Submitted :=
  subs.filterMap exOk

/-- The rejected settlements' reasons, in order (the result of
`submissions.filter((r) => r.status === "rejected")`, each reduced to its
rendered `reason`; `bulk.ts` lines 79-82). -/
def rejectedReasons (subs : List (Except String Submitted)) : List String :=
  subs.filterMap exErr

/-- The `.map((r, i) => ({ analyzer: applicable[i].name, error: ... }))`
of `bulk.ts` lines 83-86.  Note the index `i` is the position within the
filtered rejected-only list, and it is used to index `applicable`; the
index is always in range (there are at most as many rejections as
applicable analyzers), so the `getD` default is never reached. -/
def failedAux (apl : List Analyzer) : Nat → List String → List SubmissionError
  | _, [] => []
  | i, e :: rest =>
      { analyzer := ((apl.get? i).map Analyzer.name).getD "", error := e } ::
        failedAux apl (i + 1) rest

/-- The `failed` list (`bulk.ts` lines 79-86). -/
def failed (apl : List Analyzer) (subs : List (Except String Submitted)) :
    List SubmissionError :=
  failedAux apl 0 (rejectedReasons subs)

/-- Step 3 fan-out (`bulk.ts` lines 89-94): one `waitAndGetReport` call per
submitted job, settled in input order by `Promise.allSettled`.
`waitRes i` is the settlement of the i-th wait: on fulfillment the
`JobReport`, on rejection the error message (timeout or transport
failure).  The fulfilled value is `{ analyzer, report }`. -/
def reportsAux (waitRes : Nat → Except String JobReport) :
    Nat → List Submitted → List (Except String WaitResult)
  | _, [] => []
  | i, s :: rest =>
      ((waitRes i).map fun rep => { analyzer := s.analyzer, report := rep }) ::
        reportsAux waitRes (i + 1) rest

/-- The settled `reports` array (`bulk.ts` line 89). -/
def reports (sub : List Submitted) (waitRes : Nat → Except String JobReport) :
    List (Except String WaitResult) :=
  reportsAux waitRes 0 sub

/-- The `report.report?.summary?.taxonomies ?? []` optional chain
(`bulk.ts` line 107). -/
def getTaxonomies (rep : JobReport) : List Taxonomy :=
  ((rep.report.bind ReportBody.summary).bind ReportSummary.taxonomies).getD []

/-- The taxonomies one settled wait contributes to `allTaxonomies`
(`bulk.ts` lines 107-110): a fulfilled wait contributes its report's
taxonomies, each paired with the analyzer name by the `{ ...t, analyzer }`
spread; a rejected wait contributes nothing. -/
def taxContribution : Except String WaitResult → List (Taxonomy × String)
  | .ok v => (getTaxonomies v.report).map (fun t => (t, v.analyzer))
  | .error _ => []

/-- The `allTaxonomies` accumulator after the aggregation loop (`bulk.ts`
lines 97, 104-129): contributions pushed in report order. -/
def allTaxonomies (reps : List (Except String WaitResult)) :
    List (Taxonomy × String) :=
  reps.flatMap taxContribution

/-- The rendering `` `[${t.level}] ${t.namespace}:${t.predicate} = ${t.value}` ``
of `bulk.ts` line 116. -/
def renderTaxonomy (t : Taxonomy) : String :=
  "[" ++ t.level.str ++ "] " ++ t.«namespace» ++ ":" ++ t.predicate ++
    " = " ++ t.value

/-- The aggregation loop over `reports` (`bulk.ts` lines 104-129) building
`results`.  The index argument carries the position of the current element
in the `reports` array: in the rejected branch the source computes it as
`reports.indexOf(result)`, which under JavaScript reference equality is
exactly the loop position, because `Promise.allSettled` allocates a
distinct settlement object per element.  The rejected branch is
`submitted[i]?.analyzer ?? "unknown"` (the optional access cannot actually
fail since `reports` has the same length as `submitted`). -/
def resultsAux (sub : List Submitted) :
    Nat → List (Except String WaitResult) → List ResultEntry
  | _, [] => []
  | i, .ok v :: rest =>
      { analyzer := v.analyzer,
        status := v.report.status.str,
        taxonomies := (getTaxonomies v.report).map renderTaxonomy } ::
        resultsAux sub (i + 1) rest
  | i, .error msg :: rest =>
      { analyzer := ((sub.get? i).map Submitted.analyzer).getD "unknown",
        status := "Error",
        taxonomies := ["Error: " ++ msg] } ::
        resultsAux sub (i + 1) rest

/-- The `results` list (`bulk.ts` lines 98-129). -/
def results (sub : List Submitted) (reps : List (Except String WaitResult)) :
    List ResultEntry :=
  resultsAux sub 0 reps

/-- The `levelCounts` summary (`bulk.ts` lines 132-139): per-level filter
over `allTaxonomies`. -/
def levelCounts (ats : List (Taxonomy × String)) : LevelCounts :=
  { malicious := (ats.filter (fun t => t.1.level == TaxonomyLevel.malicious)).length,
    suspicious := (ats.filter (fun t => t.1.level == TaxonomyLevel.suspicious)).length,
    info := (ats.filter (fun t => t.1.level == TaxonomyLevel.info)).length,
    safe := (ats.filter (fun t => t.1.level == TaxonomyLevel.safe)).length }

/-- The whole tool handler (`bulk.ts` lines 40-172).  `dir` is the
settlement of the `client.listAnalyzers()` directory lookup; a rejection
there is the only thing the surrounding `try` can catch (every provider
call is wrapped in `Promise.allSettled`, which never rejects, and the rest
of the body is pure and in-range), and it lands in the catch block, which
returns the `isError` response with the message
`` `Error analyzing observable: ${...}` ``. -/
def analyzeObservable (dir : Except String (List Analyzer))
    (dataType data : String)
    (submitRes : Nat → Except String Job)
    (waitRes : Nat → Except String JobReport) : ToolResponse :=
  match dir with
  | .error e => .error ("Error analyzing observable: " ++ e)
  | .ok allAnalyzers =>
      let apl := applicable allAnalyzers dataType
      if apl.length = 0 then
        .text ("No analyzers found that support data type \"" ++ dataType ++ "\".")
      else
        let subs := submissions apl submitRes
        let sub := submitted subs
        let fld := failed apl subs
        let reps := reports sub waitRes
        let ats := allTaxonomies reps
        { observable := { dataType := dataType, data := data },
          analyzersRun := sub.length,
          analyzersFailed := fld.length,
          summary := levelCounts ats,
          results := results sub reps,
          submissionErrors := if fld.length > 0 then some fld else none :
          AggregateReport } |> .report

/-- The provider calls the handler issues, in program order: nothing when
the directory lookup fails (the catch block runs before any provider
work), nothing on the empty-applicable short-circuit (`bulk.ts` line 48
returns before step 2), otherwise one `runAnalyzer` per applicable
analyzer followed by one `waitAndGetReport` per fulfilled submission. -/
def issuedCalls (dir : Except String (List Analyzer)) (dataType : String)
    (submitRes : Nat → Except String Job) : List Call :=
  match dir with
  | .error _ => []
  | .ok allAnalyzers =>
      let apl := applicable allAnalyzers dataType
      if apl.length = 0 then []
      else
        apl.map (fun a => Call.submit a.id) ++
          (submitted (submissions apl submitRes)).map (fun s => Call.wait s.jobId)

/-- Specification-side definition, following the spec's words (§3, P4): the
Findings across all Completed outcomes only — a Failed completion
contributes no findings. -/
def specCompletedFindings (reps : List (Except String WaitResult)) :
    List Taxonomy :=
  reps.flatMap fun r =>
    match r with
    | .ok v => getTaxonomies v.report
    | .error _ => []

/-- Boolean discriminator of a settlement: `true` on fulfilled. -/
def isFulfilled {α : Type} : Except String α → Bool
  | .ok _ => true
  | .error _ => false

/-- Boolean discriminator of the `isError: true` response shape. -/
def ToolResponse.isErrorResponse : ToolResponse → Bool
  | .error _ => true
  | _ => false

/-- The entry the aggregation loop produces for position `i`, as a function
of the i-th submitted entry and the i-th wait settlement alone. -/
def entryAt (sub : List Submitted) (w : Nat → Except String JobReport)
    (i : Nat) : ResultEntry :=
  match w i with
  | .ok rep =>
      { analyzer := ((sub.get? i).map Submitted.analyzer).getD "unknown",
        status := rep.status.str,
        taxonomies := (getTaxonomies rep).map renderTaxonomy }
  | .error msg =>
      { analyzer := ((sub.get? i).map Submitted.analyzer).getD "unknown",
        status := "Error",
        taxonomies := ["Error: " ++ msg] }

theorem submissionsAux_length (f : Nat → Except String Job) :
    ∀ (n : Nat) (l : List Analyzer), (submissionsAux f n l).length = l.length := by
  intro n l
  induction l generalizing n with
  | nil => rfl
  | cons a rest ih => simp [submissionsAux, ih]

theorem reportsAux_length (w : Nat → Except String JobReport) :
    ∀ (n : Nat) (l : List Submitted), (reportsAux w n l).length = l.length := by
  intro n l
  induction l generalizing n with
  | nil => rfl
  | cons s rest ih => simp [reportsAux, ih]

theorem resultsAux_length (sub : List Submitted) :
    ∀ (n : Nat) (l : List (Except String WaitResult)),
      (resultsAux sub n l).length = l.length := by
  intro n l
  induction l generalizing n with
  | nil => rfl
  | cons r rest ih =>
      cases r with
      | ok v => simp [resultsAux, ih]
      | error msg => simp [resultsAux, ih]

theorem failedAux_length (apl : List Analyzer) :
    ∀ (n : Nat) (l : List String), (failedAux apl n l).length = l.length := by
  intro n l
  induction l generalizing n with
  | nil => rfl
  | cons e rest ih => simp [failedAux, ih]

theorem filterMap_exOk_length {α : Type} (l : List (Except String α)) :
    (l.filterMap exOk).length = l.countP isFulfilled := by
  induction l with
  | nil => rfl
  | cons r rest ih =>
      cases r with
      | ok a => simp [exOk, isFulfilled, List.countP_cons, ih]
      | error e => simp [exOk, isFulfilled, List.countP_cons, ih]

theorem filterMap_exErr_length {α : Type} (l : List (Except String α)) :
    (l.filterMap exErr).length = l.countP (fun r => !(isFulfilled r)) := by
  induction l with
  | nil => rfl
  | cons r rest ih =>
      cases r with
      | ok a => simp [exErr, isFulfilled, List.countP_cons, ih]
      | error e => simp [exErr, isFulfilled, List.countP_cons, ih]

theorem filterMap_exOk_add_exErr_length {α : Type} (l : List (Except String α)) :
    (l.filterMap exOk).length + (l.filterMap exErr).length = l.length := by
  induction l with
  | nil => rfl
  | cons r rest ih =>
      cases r with
      | ok a =>
          simp only [List.filterMap_cons, exOk, exErr, List.length_cons]
          omega
      | error e =>
          simp only [List.filterMap_cons, exOk, exErr, List.length_cons]
          omega

theorem resultsAux_reportsAux_get? (w : Nat → Except String JobReport)
    (sub : List Submitted) :
    ∀ (tail : List Submitted) (n i : Nat),
      (∀ j, j < tail.length → tail.get? j = sub.get? (n + j)) →
      i < tail.length →
      (resultsAux sub n (reportsAux w n tail)).get? i =
        some (entryAt sub w (n + i)) := by
  intro tail
  induction tail with
  | nil =>
      intro n i _ hi
      exact absurd hi (by simp)
  | cons s rest ih =>
      intro n i hsub hi
      have hhead : sub.get? n = some s := by
        have := hsub 0 (by simp)
        simpa using this.symm
      have hhead2 : sub[n]? = some s := by
        rw [← List.get?_eq_getElem?]
        exact hhead
      cases hwn : w n with
      | ok rep =>
          have hrep : reportsAux w n (s :: rest) =
              Except.ok { analyzer := s.analyzer, report := rep } ::
                reportsAux w (n + 1) rest := by
            simp [reportsAux, hwn, Except.map]
          cases i with
          | zero =>
              rw [hrep]
              simp only [resultsAux, List.get?]
              have : entryAt sub w (n + 0) =
                  { analyzer := s.analyzer, status := rep.status.str,
                    taxonomies := (getTaxonomies rep).map renderTaxonomy } := by
                simp [entryAt, hwn, hhead, hhead2]
              rw [this]
          | succ k =>
              rw [hrep]
              simp only [resultsAux, List.get?]
              have hn : n + (k + 1) = (n + 1) + k := by omega
              rw [hn]
              apply ih (n + 1) k
              · intro j hj
                have := hsub (j + 1) (by simpa using Nat.succ_lt_succ hj)
                simpa [Nat.add_assoc, Nat.add_comm 1 j] using this
              · simpa using Nat.lt_of_succ_lt_succ (Nat.succ_lt_succ hi)
      | error msg =>
          have hrep : reportsAux w n (s :: rest) =
              Except.error msg :: reportsAux w (n + 1) rest := by
            simp [reportsAux, hwn, Except.map]
          cases i with
          | zero =>
              rw [hrep]
              simp only [resultsAux, List.get?]
              have : entryAt sub w (n + 0) =
                  { analyzer := ((sub.get? n).map Submitted.analyzer).getD "unknown",
                    status := "Error", taxonomies := ["Error: " ++ msg] } := by
                simp [entryAt, hwn]
              rw [this]
          | succ k =>
              rw [hrep]
              simp only [resultsAux, List.get?]
              have hn : n + (k + 1) = (n + 1) + k := by omega
              rw [hn]
              apply ih (n + 1) k
              · intro j hj
                have := hsub (j + 1) (by simpa using Nat.succ_lt_succ hj)
                simpa [Nat.add_assoc, Nat.add_comm 1 j] using this
              · simpa using Nat.lt_of_succ_lt_succ (Nat.succ_lt_succ hi)

theorem results_get?_eq (sub : List Submitted)
    (w : Nat → Except String JobReport) (i : Nat) (hi : i < sub.length) :
    (results sub (reports sub w)).get? i = some (entryAt sub w i) := by
  have := resultsAux_reportsAux_get? w sub sub 0 i (fun j hj => by simp) hi
  simpa using this

theorem allTaxonomies_filter_length (p : Taxonomy → Bool)
    (reps : List (Except String WaitResult)) :
    ((allTaxonomies reps).filter (fun t => p t.1)).length =
      (specCompletedFindings reps).countP p := by
  induction reps with
  | nil => rfl
  | cons r rest ih =>
      cases r with
      | ok v =>
          have h1 : allTaxonomies (Except.ok v :: rest) =
              (getTaxonomies v.report).map (fun t => (t, v.analyzer)) ++
                allTaxonomies rest := by
            simp [allTaxonomies, taxContribution]
          have h2 : specCompletedFindings (Except.ok v :: rest) =
              getTaxonomies v.report ++ specCompletedFindings rest := by
            simp [specCompletedFindings]
          rw [h1, h2, List.filter_append, List.length_append,
            List.countP_append, ih, List.filter_map, List.length_map,
            List.countP_eq_length_filter]
          have hcomp : ((fun t => p t.1) ∘ fun t : Taxonomy => (t, v.analyzer)) = p := by
            funext t
            rfl
          rw [hcomp, List.countP_eq_length_filter]
      | error msg =>
          have h1 : allTaxonomies (Except.error msg :: rest) =
              allTaxonomies rest := by
            simp [allTaxonomies, taxContribution]
          have h2 : specCompletedFindings (Except.error msg :: rest) =
              specCompletedFindings rest := by
            simp [specCompletedFindings]
          rw [h1, h2, ih]

/-- The report the handler assembles on the non-empty-applicable path,
lifted out of `analyzeObservable` for reuse in proofs;
`analyzeObservable_report` proves it is exactly what the handler returns. -/
def fullReport (allAnalyzers : List Analyzer) (dataType data : String)
    (submitRes : Nat → Except String Job)
    (waitRes : Nat → Except String JobReport) : AggregateReport :=
  let apl := applicable allAnalyzers dataType
  let subs := submissions apl submitRes
  let sub := submitted subs
  let fld := failed apl subs
  let reps := reports sub waitRes
  { observable := { dataType := dataType, data := data },
    analyzersRun := sub.length,
    analyzersFailed := fld.length,
    summary := levelCounts (allTaxonomies reps),
    results := results sub reps,
    submissionErrors := if fld.length > 0 then some fld else none }

theorem analyzeObservable_report (allAnalyzers : List Analyzer)
    (dataType data : String) (submitRes : Nat → Except String Job)
    (waitRes : Nat → Except String JobReport)
    (h : applicable allAnalyzers dataType ≠ []) :
    analyzeObservable (.ok allAnalyzers) dataType data submitRes waitRes =
      .report (fullReport allAnalyzers dataType data submitRes waitRes) := by
  have hlen : ¬ (applicable allAnalyzers dataType).length = 0 := by
    simpa [List.length_eq_zero] using h
  simp only [analyzeObservable, fullReport]
  rw [if_neg hlen]

/-- Analyzer at position 0 of the C1 failing input. -/
def alphaAnalyzer : Analyzer :=
  { id := "a1", name := "AlphaAnalyzer", version := "1.0", description := "",
    dataTypeList := ["ip"] }

/-- Analyzer at position 1 of the C1 failing input. -/
def betaAnalyzer : Analyzer :=
  { id := "b1", name := "BetaAnalyzer", version := "1.0", description := "",
    dataTypeList := ["ip"] }

/-- Settlements of the C1 failing input: the call for the analyzer at
position 0 fulfills with job "j1"; the call for the analyzer at position 1
rejects with "boom". -/
def submitResC1 : Nat → Except String Job := fun i =>
  if i = 0 then .ok { id := "j1", status := .Waiting } else .error "boom"

/-- Claim C1: every entry of the Rejected list carries the name of exactly
the provider whose submission call failed.  REFUTED by the code: in
`bulk.ts` lines 83-86 the rejected settlements are filtered first and then
mapped with `(r, i) => ({ analyzer: applicable[i].name, ... })`, so `i` is
the position within the rejected-only list, not the position of the call
that rejected.  At this input the only rejection comes from the call at
position 1 (BetaAnalyzer), yet the produced entry names AlphaAnalyzer.
This theorem evaluates the embedded code at the failing input. -/
theorem C1_rejection_misattributed :
    applicable [alphaAnalyzer, betaAnalyzer] "ip" = [alphaAnalyzer, betaAnalyzer] ∧
    submissions (applicable [alphaAnalyzer, betaAnalyzer] "ip") submitResC1 =
      [Except.ok { analyzer := "AlphaAnalyzer", jobId := "j1" },
       Except.error "boom"] ∧
    betaAnalyzer.name = "BetaAnalyzer" ∧
    failed (applicable [alphaAnalyzer, betaAnalyzer] "ip")
        (submissions (applicable [alphaAnalyzer, betaAnalyzer] "ip") submitResC1) =
      [{ analyzer := "AlphaAnalyzer", error := "boom" }] := by
  refine ⟨rfl, rfl, rfl, rfl⟩

/-- Analyzer at position 0 of the C2 counterexample input. -/
def gammaAnalyzer : Analyzer :=
  { id := "g1", name := "GammaAnalyzer", version := "1.0", description := "",
    dataTypeList := ["domain"] }

/-- Analyzer at position 1 of the C2 counterexample input. -/
def deltaAnalyzer : Analyzer :=
  { id := "d1", name := "DeltaAnalyzer", version := "1.0", description := "",
    dataTypeList := ["domain"] }

/-- Settlements of the C2 counterexample input: position 0 fulfills,
position 1 rejects. -/
def submitResC2 : Nat → Except String Job := fun i =>
  if i = 0 then .ok { id := "g-job", status := .Waiting }
  else .error "Analyzer rate limited"

/-- Claim C2, as stated, is false on the code: DeltaAnalyzer is applicable,
yet (because its rejection is recorded under GammaAnalyzer's name, see C1)
no entry of either the Submitted or the Rejected list carries
DeltaAnalyzer's name — it appears in neither list. -/
theorem C2_partition_counterexample :
    deltaAnalyzer ∈ applicable [gammaAnalyzer, deltaAnalyzer] "domain" ∧
    (submitted (submissions (applicable [gammaAnalyzer, deltaAnalyzer] "domain")
          submitResC2)).countP (fun s => s.analyzer == "DeltaAnalyzer") +
      (failed (applicable [gammaAnalyzer, deltaAnalyzer] "domain")
          (submissions (applicable [gammaAnalyzer, deltaAnalyzer] "domain")
            submitResC2)).countP (fun s => s.analyzer == "DeltaAnalyzer") = 0 := by
  have happ : applicable [gammaAnalyzer, deltaAnalyzer] "domain" =
      [gammaAnalyzer, deltaAnalyzer] := rfl
  refine ⟨happ ▸ List.mem_cons_of_mem _ (List.mem_cons_self _ _), rfl⟩

/-- Claim C2 (amended): the number of Submitted entries plus the number of
Rejected entries equals the number of applicable providers — every
submission settlement is recorded in exactly one of the two lists, and a
single submission failure never removes or blocks the outcomes of the
other providers (every fulfilled settlement's value reaches the Submitted
list).  What the original claim adds — that the recorded entry carries
that provider's own name — fails, per `C2_partition_counterexample`. -/
theorem C2_partition_counts (allAnalyzers : List Analyzer) (dataType : String)
    (submitRes : Nat → Except String Job) :
    (submitted (submissions (applicable allAnalyzers dataType) submitRes)).length +
      (failed (applicable allAnalyzers dataType)
        (submissions (applicable allAnalyzers dataType) submitRes)).length =
      (applicable allAnalyzers dataType).length ∧
    ∀ j v, (submissions (applicable allAnalyzers dataType) submitRes).get? j =
        some (Except.ok v) →
      v ∈ submitted (submissions (applicable allAnalyzers dataType) submitRes) := by
  constructor
  · rw [show failed (applicable allAnalyzers dataType)
          (submissions (applicable allAnalyzers dataType) submitRes) =
        failedAux (applicable allAnalyzers dataType) 0
          (rejectedReasons (submissions (applicable allAnalyzers dataType) submitRes))
        from rfl]
    rw [failedAux_length]
    rw [show submitted (submissions (applicable allAnalyzers dataType) submitRes) =
        (submissions (applicable allAnalyzers dataType) submitRes).filterMap exOk
        from rfl]
    rw [show rejectedReasons (submissions (applicable allAnalyzers dataType) submitRes) =
        (submissions (applicable allAnalyzers dataType) submitRes).filterMap exErr
        from rfl]
    rw [filterMap_exOk_add_exErr_length]
    exact submissionsAux_length submitRes 0 (applicable allAnalyzers dataType)
  · intro j v hj
    exact List.mem_filterMap.mpr ⟨Except.ok v, List.get?_mem hj, rfl⟩

/-- Concrete input for the C2 witness. -/
def epsilonAnalyzer : Analyzer :=
  { id := "e1", name := "EpsilonAnalyzer", version := "1.0", description := "",
    dataTypeList := ["hash"] }

theorem C2_partition_counts_witness :
    ({ analyzer := "EpsilonAnalyzer", jobId := "e-job" } : Submitted) ∈
      submitted (submissions (applicable [epsilonAnalyzer] "hash")
        (fun _ => Except.ok { id := "e-job", status := JobStatus.Waiting })) :=
  (C2_partition_counts [epsilonAnalyzer] "hash"
      (fun _ => Except.ok { id := "e-job", status := JobStatus.Waiting })).2
    0 { analyzer := "EpsilonAnalyzer", jobId := "e-job" } rfl

/-- Claim C3: each Submitted task yields exactly one completion settlement
(`reports` has one entry per Submitted task), the aggregator's `results`
list has length equal to the number of Submitted entries, and the entries
are aligned with the Submitted list: the i-th `results` entry carries the
i-th Submitted entry's analyzer.  The order is independent of settlement
timing, which the embedding reflects because `Promise.allSettled` returns
its results in input order. -/
theorem C3_results_alignment (sub : List Submitted)
    (waitRes : Nat → Except String JobReport) :
    (reports sub waitRes).length = sub.length ∧
    (results sub (reports sub waitRes)).length = sub.length ∧
    ∀ i, i < sub.length →
      ((results sub (reports sub waitRes)).get? i).map ResultEntry.analyzer =
        (sub.get? i).map Submitted.analyzer := by
  refine ⟨reportsAux_length waitRes 0 sub, ?_, ?_⟩
  · rw [show results sub (reports sub waitRes) =
        resultsAux sub 0 (reports sub waitRes) from rfl]
    rw [resultsAux_length]
    exact reportsAux_length waitRes 0 sub
  · intro i hi
    rw [results_get?_eq sub waitRes i hi]
    obtain ⟨s, hs⟩ : ∃ s, sub.get? i = some s := ⟨_, List.get?_eq_get hi⟩
    have hs2 : sub[i]? = some s := by
      rw [← List.get?_eq_getElem?]
      exact hs
    rw [hs]
    cases hw : waitRes i with
    | ok rep => simp [entryAt, hw, hs, hs2]
    | error msg => simp [entryAt, hw, hs, hs2]

/-- Concrete submitted list for the C3 witness. -/
def subWitC3 : List Submitted :=
  [{ analyzer := "AlphaAnalyzer", jobId := "j1" },
   { analyzer := "BetaAnalyzer", jobId := "j2" }]

/-- Concrete wait settlements for the C3 witness: the first wait fulfills,
the second rejects with a timeout message. -/
def waitResC3 : Nat → Except String JobReport := fun i =>
  if i = 0 then .ok { id := "j1", status := .Success, report := none }
  else .error "Cortex API timeout after 30000ms"

theorem C3_results_alignment_witness :
    ((results subWitC3 (reports subWitC3 waitResC3)).get? 1).map
        ResultEntry.analyzer =
      (subWitC3.get? 1).map Submitted.analyzer :=
  (C3_results_alignment subWitC3 waitResC3).2.2 1 (by decide)

/-- Claim C4: in every successful AggregateReport, `analyzersRun` equals the
number of Submitted (fulfilled-submission) outcomes and `analyzersFailed`
equals the number of Rejected (rejected-submission) outcomes. -/
theorem C4_count_consistency (allAnalyzers : List Analyzer)
    (dataType data : String) (submitRes : Nat → Except String Job)
    (waitRes : Nat → Except String JobReport)
    (h : applicable allAnalyzers dataType ≠ []) :
    ∃ r, analyzeObservable (.ok allAnalyzers) dataType data submitRes waitRes =
        .report r ∧
      r.analyzersRun =
        (submissions (applicable allAnalyzers dataType) submitRes).countP
          isFulfilled ∧
      r.analyzersFailed =
        (submissions (applicable allAnalyzers dataType) submitRes).countP
          (fun s => !(isFulfilled s)) := by
  refine ⟨fullReport allAnalyzers dataType data submitRes waitRes,
    analyzeObservable_report allAnalyzers dataType data submitRes waitRes h,
    ?_, ?_⟩
  · exact filterMap_exOk_length _
  · show (failedAux _ 0 _).length = _
    rw [failedAux_length]
    exact filterMap_exErr_length _

/-- Concrete input for the C4 witness (one fulfilled, one rejected
submission). -/
def zetaAnalyzer : Analyzer :=
  { id := "z1", name := "ZetaAnalyzer", version := "1.0", description := "",
    dataTypeList := ["url"] }

/-- Second analyzer of the C4 witness input. -/
def etaAnalyzer : Analyzer :=
  { id := "h1", name := "EtaAnalyzer", version := "1.0", description := "",
    dataTypeList := ["url"] }

/-- Submission settlements of the C4 witness input. -/
def submitResC4 : Nat → Except String Job := fun i =>
  if i = 0 then .ok { id := "z-job", status := .InProgress }
  else .error "Cortex API error: Rate limit exceeded"

theorem C4_count_consistency_witness :
    ∃ r, analyzeObservable (.ok [zetaAnalyzer, etaAnalyzer]) "url" "http://x"
          submitResC4 (fun _ => Except.error "unused") = .report r ∧
      r.analyzersRun =
        (submissions (applicable [zetaAnalyzer, etaAnalyzer] "url") submitResC4).countP
          isFulfilled ∧
      r.analyzersFailed =
        (submissions (applicable [zetaAnalyzer, etaAnalyzer] "url") submitResC4).countP
          (fun s => !(isFulfilled s)) :=
  C4_count_consistency [zetaAnalyzer, etaAnalyzer] "url" "http://x" submitResC4
    (fun _ => Except.error "unused")
    (by rw [show applicable [zetaAnalyzer, etaAnalyzer] "url" =
          [zetaAnalyzer, etaAnalyzer] from rfl]
        exact List.cons_ne_nil _ _)

/-- Claim C5: for each of the four fixed severity categories, the
per-category count in the report's summary equals the number of Findings
with that severity across Completed (fulfilled-wait) outcomes only.
`specCompletedFindings` is the specification-side count source: it gathers
findings from fulfilled waits only, so Rejected submissions (which never
reach the completion stage) and Failed completions contribute zero to
every category. -/
theorem C5_category_tally (allAnalyzers : List Analyzer)
    (dataType data : String) (submitRes : Nat → Except String Job)
    (waitRes : Nat → Except String JobReport)
    (h : applicable allAnalyzers dataType ≠ []) :
    ∃ r, analyzeObservable (.ok allAnalyzers) dataType data submitRes waitRes =
        .report r ∧
      r.summary.info =
        (specCompletedFindings (reports (submitted
            (submissions (applicable allAnalyzers dataType) submitRes))
          waitRes)).countP (fun t => t.level == TaxonomyLevel.info) ∧
      r.summary.safe =
        (specCompletedFindings (reports (submitted
            (submissions (applicable allAnalyzers dataType) submitRes))
          waitRes)).countP (fun t => t.level == TaxonomyLevel.safe) ∧
      r.summary.suspicious =
        (specCompletedFindings (reports (submitted
            (submissions (applicable allAnalyzers dataType) submitRes))
          waitRes)).countP (fun t => t.level == TaxonomyLevel.suspicious) ∧
      r.summary.malicious =
        (specCompletedFindings (reports (submitted
            (submissions (applicable allAnalyzers dataType) submitRes))
          waitRes)).countP (fun t => t.level == TaxonomyLevel.malicious) :=
  ⟨fullReport allAnalyzers dataType data submitRes waitRes,
   analyzeObservable_report allAnalyzers dataType data submitRes waitRes h,
   allTaxonomies_filter_length (fun t => t.level == TaxonomyLevel.info) _,
   allTaxonomies_filter_length (fun t => t.level == TaxonomyLevel.safe) _,
   allTaxonomies_filter_length (fun t => t.level == TaxonomyLevel.suspicious) _,
   allTaxonomies_filter_length (fun t => t.level == TaxonomyLevel.malicious) _⟩

/-- First analyzer of the C5 witness input. -/
def nuAnalyzer : Analyzer :=
  { id := "n1", name := "NuAnalyzer", version := "1.0", description := "",
    dataTypeList := ["ip"] }

/-- Second analyzer of the C5 witness input. -/
def xiAnalyzer : Analyzer :=
  { id := "x1", name := "XiAnalyzer", version := "1.0", description := "",
    dataTypeList := ["ip"] }

/-- Submission settlements of the C5 witness input: both fulfill. -/
def submitResC5 : Nat → Except String Job := fun i =>
  if i = 0 then .ok { id := "n-job", status := .InProgress }
  else .ok { id := "x-job", status := .InProgress }

/-- Malicious finding of the first C5 witness report. -/
def taxC5a : Taxonomy :=
  { level := .malicious, «namespace» := "NS", predicate := "P", value := "bad" }

/-- Suspicious finding of the second C5 witness report. -/
def taxC5b : Taxonomy :=
  { level := .suspicious, «namespace» := "NS", predicate := "P", value := "odd" }

/-- First C5 witness report. -/
def repC5a : JobReport :=
  { id := "n-job", status := .Success,
    report := some { summary := some { taxonomies := some [taxC5a] },
                     success := some true } }

/-- Second C5 witness report. -/
def repC5b : JobReport :=
  { id := "x-job", status := .Success,
    report := some { summary := some { taxonomies := some [taxC5b] },
                     success := some true } }

/-- Wait settlements of the C5 witness input: the first report carries one
malicious finding, the second one suspicious finding. -/
def waitResC5 : Nat → Except String JobReport := fun i =>
  if i = 0 then .ok repC5a else .ok repC5b

theorem C5_category_tally_witness :
    ∃ r, analyzeObservable (.ok [nuAnalyzer, xiAnalyzer]) "ip" "1.2.3.4"
          submitResC5 waitResC5 = .report r ∧
      r.summary.info =
        (specCompletedFindings (reports (submitted
            (submissions (applicable [nuAnalyzer, xiAnalyzer] "ip") submitResC5))
          waitResC5)).countP (fun t => t.level == TaxonomyLevel.info) ∧
      r.summary.safe =
        (specCompletedFindings (reports (submitted
            (submissions (applicable [nuAnalyzer, xiAnalyzer] "ip") submitResC5))
          waitResC5)).countP (fun t => t.level == TaxonomyLevel.safe) ∧
      r.summary.suspicious =
        (specCompletedFindings (reports (submitted
            (submissions (applicable [nuAnalyzer, xiAnalyzer] "ip") submitResC5))
          waitResC5)).countP (fun t => t.level == TaxonomyLevel.suspicious) ∧
      r.summary.malicious =
        (specCompletedFindings (reports (submitted
            (submissions (applicable [nuAnalyzer, xiAnalyzer] "ip") submitResC5))
          waitResC5)).countP (fun t => t.level == TaxonomyLevel.malicious) :=
  C5_category_tally [nuAnalyzer, xiAnalyzer] "ip" "1.2.3.4" submitResC5
    waitResC5
    (by rw [show applicable [nuAnalyzer, xiAnalyzer] "ip" =
          [nuAnalyzer, xiAnalyzer] from rfl]
        exact List.cons_ne_nil _ _)

/-- Claim C6: `submissionErrors` is present in the report iff there was at
least one Rejected submission; when there are none the field is omitted
(`none`, i.e. dropped by `JSON.stringify`) rather than an empty list, and
when present it is never the empty list. -/
theorem C6_submission_errors_presence (allAnalyzers : List Analyzer)
    (dataType data : String) (submitRes : Nat → Except String Job)
    (waitRes : Nat → Except String JobReport)
    (h : applicable allAnalyzers dataType ≠ []) :
    ∃ r, analyzeObservable (.ok allAnalyzers) dataType data submitRes waitRes =
        .report r ∧
      (r.submissionErrors.isSome ↔
        0 < (failed (applicable allAnalyzers dataType)
          (submissions (applicable allAnalyzers dataType) submitRes)).length) ∧
      ∀ l, r.submissionErrors = some l → l ≠ [] := by
  refine ⟨fullReport allAnalyzers dataType data submitRes waitRes,
    analyzeObservable_report allAnalyzers dataType data submitRes waitRes h,
    ?_, ?_⟩
  · show (if 0 < (failed _ _).length then some _ else none : Option _).isSome ↔ _
    by_cases hc : 0 < (failed (applicable allAnalyzers dataType)
        (submissions (applicable allAnalyzers dataType) submitRes)).length
    · simp [hc]
    · simp [hc]
  · intro l hl
    show l ≠ []
    by_cases hc : 0 < (failed (applicable allAnalyzers dataType)
        (submissions (applicable allAnalyzers dataType) submitRes)).length
    · have : (if 0 < (failed (applicable allAnalyzers dataType)
          (submissions (applicable allAnalyzers dataType) submitRes)).length
            then some (failed (applicable allAnalyzers dataType)
              (submissions (applicable allAnalyzers dataType) submitRes))
            else none) = some l := hl
      rw [if_pos hc] at this
      intro hnil
      rw [Option.some.injEq] at this
      rw [this, hnil] at hc
      simp at hc
    · have : (if 0 < (failed (applicable allAnalyzers dataType)
          (submissions (applicable allAnalyzers dataType) submitRes)).length
            then some (failed (applicable allAnalyzers dataType)
              (submissions (applicable allAnalyzers dataType) submitRes))
            else none) = some l := hl
      rw [if_neg hc] at this
      exact absurd this (by simp)

/-- Concrete input for the C6 witness. -/
def thetaAnalyzer : Analyzer :=
  { id := "t1", name := "ThetaAnalyzer", version := "1.0", description := "",
    dataTypeList := ["mail"] }

theorem C6_submission_errors_presence_witness :
    ∃ r, analyzeObservable (.ok [thetaAnalyzer]) "mail" "a@b.c"
          (fun _ => Except.ok { id := "t-job", status := JobStatus.Waiting })
          (fun _ => Except.error "unused") = .report r ∧
      (r.submissionErrors.isSome ↔
        0 < (failed (applicable [thetaAnalyzer] "mail")
          (submissions (applicable [thetaAnalyzer] "mail")
            (fun _ => Except.ok { id := "t-job", status := JobStatus.Waiting }))).length) ∧
      ∀ l, r.submissionErrors = some l → l ≠ [] :=
  C6_submission_errors_presence [thetaAnalyzer] "mail" "a@b.c"
    (fun _ => Except.ok { id := "t-job", status := JobStatus.Waiting })
    (fun _ => Except.error "unused")
    (by rw [show applicable [thetaAnalyzer] "mail" = [thetaAnalyzer] from rfl]
        exact List.cons_ne_nil _ _)

/-- Claim C7: if the applicable-provider list is empty the orchestrator
short-circuits: it returns the "No analyzers found" text response, issues
no submission and no completion-wait call, and returns no AggregateReport
(the `.text` constructor carries no report); if the list is non-empty it
proceeds and returns a report. -/
theorem C7_no_providers_short_circuit (allAnalyzers : List Analyzer)
    (dataType data : String) (submitRes : Nat → Except String Job)
    (waitRes : Nat → Except String JobReport) :
    (applicable allAnalyzers dataType = [] →
      analyzeObservable (.ok allAnalyzers) dataType data submitRes waitRes =
        .text ("No analyzers found that support data type \"" ++ dataType ++ "\".") ∧
      issuedCalls (.ok allAnalyzers) dataType submitRes = []) ∧
    (applicable allAnalyzers dataType ≠ [] →
      ∃ r, analyzeObservable (.ok allAnalyzers) dataType data submitRes waitRes =
        .report r) := by
  constructor
  · intro hnil
    have hlen : (applicable allAnalyzers dataType).length = 0 := by
      rw [hnil]
      rfl
    constructor
    · simp only [analyzeObservable]
      rw [if_pos hlen]
    · simp only [issuedCalls]
      rw [if_pos hlen]
  · intro h
    exact ⟨fullReport allAnalyzers dataType data submitRes waitRes,
      analyzeObservable_report allAnalyzers dataType data submitRes waitRes h⟩

/-- Concrete analyzer for the C7 witness: it does not support "registry",
so the applicable list for "registry" is empty, while it does support
"ip". -/
def iotaAnalyzer : Analyzer :=
  { id := "i1", name := "IotaAnalyzer", version := "1.0", description := "",
    dataTypeList := ["ip"] }

theorem C7_no_providers_short_circuit_witness :
    (analyzeObservable (.ok [iotaAnalyzer]) "registry" "HKLM"
        (fun _ => Except.error "unused") (fun _ => Except.error "unused") =
      .text "No analyzers found that support data type \"registry\"." ∧
      issuedCalls (.ok [iotaAnalyzer]) "registry"
        (fun _ => Except.error "unused") = []) ∧
    ∃ r, analyzeObservable (.ok [iotaAnalyzer]) "ip" "1.2.3.4"
        (fun _ => Except.error "unused") (fun _ => Except.error "unused") =
      .report r :=
  ⟨(C7_no_providers_short_circuit [iotaAnalyzer] "registry" "HKLM"
      (fun _ => Except.error "unused") (fun _ => Except.error "unused")).1 rfl,
   (C7_no_providers_short_circuit [iotaAnalyzer] "ip" "1.2.3.4"
      (fun _ => Except.error "unused") (fun _ => Except.error "unused")).2
     (by rw [show applicable [iotaAnalyzer] "ip" = [iotaAnalyzer] from rfl]
         exact List.cons_ne_nil _ _)⟩

/-- Claim C8: the error-flagged response arises exactly from a failed
directory lookup, and then carries only the human-readable message; when
the directory lookup succeeds, the response is never error-flagged, no
matter how many individual submissions or completion waits fail (they are
captured as data by the settle-all stages and the aggregation). -/
theorem C8_fatal_only_from_directory (dataType data : String)
    (submitRes : Nat → Except String Job)
    (waitRes : Nat → Except String JobReport) :
    (∀ e, analyzeObservable (.error e) dataType data submitRes waitRes =
      .error ("Error analyzing observable: " ++ e)) ∧
    (∀ allAnalyzers : List Analyzer,
      (analyzeObservable (.ok allAnalyzers) dataType data submitRes
        waitRes).isErrorResponse = false) := by
  constructor
  · intro e
    rfl
  · intro allAnalyzers
    simp only [analyzeObservable]
    by_cases hc : (applicable allAnalyzers dataType).length = 0
    · rw [if_pos hc]
      rfl
    · rw [if_neg hc]
      rfl

/-- Claim C9: a Failed completion (rejected wait: timeout or transport
failure) yields, in the same `results` list, an entry whose status is the
distinguished "Error" tag and whose rendered-findings list is the single
synthetic entry `"Error: " ++ message`; the entry carries the failed
task's own analyzer name.  The second conjunct shows every `results` entry
is a function of its own index's submitted entry and wait settlement
alone, so sibling providers' entries are unaffected; there is no separate
output list for completion failures (the `AggregateReport` structure has
no such field — completion failures appear only inline in `results`). -/
theorem C9_failed_completion_inline (sub : List Submitted)
    (waitRes : Nat → Except String JobReport) (i : Nat) (msg : String)
    (hi : i < sub.length) (hw : waitRes i = .error msg) :
    (∃ s, sub.get? i = some s ∧
      (results sub (reports sub waitRes)).get? i =
        some { analyzer := s.analyzer, status := "Error",
               taxonomies := ["Error: " ++ msg] }) ∧
    ∀ j, j < sub.length →
      (results sub (reports sub waitRes)).get? j =
        some (entryAt sub waitRes j) := by
  constructor
  · obtain ⟨s, hs⟩ : ∃ s, sub.get? i = some s := ⟨_, List.get?_eq_get hi⟩
    have hs2 : sub[i]? = some s := by
      rw [← List.get?_eq_getElem?]
      exact hs
    refine ⟨s, hs, ?_⟩
    rw [results_get?_eq sub waitRes i hi]
    simp [entryAt, hw, hs, hs2]
  · intro j hj
    exact results_get?_eq sub waitRes j hj

/-- Concrete submitted list for the C9 witness. -/
def subWitC9 : List Submitted :=
  [{ analyzer := "KappaAnalyzer", jobId := "k1" },
   { analyzer := "LambdaAnalyzer", jobId := "k2" }]

/-- Concrete wait settlements for the C9 witness: the wait at position 1
rejects with a timeout message. -/
def waitResC9 : Nat → Except String JobReport := fun i =>
  if i = 0 then .ok { id := "k1", status := .Success, report := none }
  else .error "Cortex API timeout after 30000ms"

theorem C9_failed_completion_inline_witness :
    (∃ s, subWitC9.get? 1 = some s ∧
      (results subWitC9 (reports subWitC9 waitResC9)).get? 1 =
        some { analyzer := s.analyzer, status := "Error",
               taxonomies := ["Error: " ++ "Cortex API timeout after 30000ms"] }) ∧
    ∀ j, j < subWitC9.length →
      (results subWitC9 (reports subWitC9 waitResC9)).get? j =
        some (entryAt subWitC9 waitResC9 j) :=
  C9_failed_completion_inline subWitC9 waitResC9 1
    "Cortex API timeout after 30000ms" (by decide) rfl

/-- Claim C10: a Completed (fulfilled-wait) outcome whose payload lacks the
optional `report`, `summary` or `taxonomies` field is treated as having an
empty finding list instead of failing: the optional chain evaluates to
`[]`, the provider still gets a `results` entry carrying its real status
tag with an empty rendered-findings list, and the outcome contributes
nothing to `allTaxonomies` (hence zero to every category count). -/
theorem C10_missing_report_fields_safe (sub : List Submitted)
    (waitRes : Nat → Except String JobReport) (i : Nat) (rep : JobReport)
    (hi : i < sub.length) (hw : waitRes i = .ok rep)
    (hmiss : rep.report = none ∨
      (∃ b, rep.report = some b ∧ b.summary = none) ∨
      (∃ b sm, rep.report = some b ∧ b.summary = some sm ∧
        sm.taxonomies = none)) :
    getTaxonomies rep = [] ∧
    (∃ s, sub.get? i = some s ∧
      (results sub (reports sub waitRes)).get? i =
        some { analyzer := s.analyzer, status := rep.status.str,
               taxonomies := [] }) ∧
    ∀ a, taxContribution (Except.ok { analyzer := a, report := rep }) = [] := by
  have hget : getTaxonomies rep = [] := by
    rcases hmiss with h1 | ⟨b, hb, hsum⟩ | ⟨b, sm, hb, hsm, ht⟩
    · simp [getTaxonomies, h1]
    · simp [getTaxonomies, hb, hsum]
    · simp [getTaxonomies, hb, hsm, ht]
  refine ⟨hget, ?_, ?_⟩
  · obtain ⟨s, hs⟩ : ∃ s, sub.get? i = some s := ⟨_, List.get?_eq_get hi⟩
    have hs2 : sub[i]? = some s := by
      rw [← List.get?_eq_getElem?]
      exact hs
    refine ⟨s, hs, ?_⟩
    rw [results_get?_eq sub waitRes i hi]
    simp [entryAt, hw, hs, hs2, hget]
  · intro a
    simp [taxContribution, hget]

/-- Concrete submitted list for the C10 witness. -/
def subWitC10 : List Submitted := [{ analyzer := "MuAnalyzer", jobId := "m1" }]

/-- Concrete fulfilled report for the C10 witness: no `report` object at
all. -/
def repC10 : JobReport := { id := "m1", status := .Success, report := none }

theorem C10_missing_report_fields_safe_witness :
    getTaxonomies repC10 = [] ∧
    (∃ s, subWitC10.get? 0 = some s ∧
      (results subWitC10 (reports subWitC10 (fun _ => Except.ok repC10))).get? 0 =
        some { analyzer := s.analyzer, status := repC10.status.str,
               taxonomies := [] }) ∧
    ∀ a, taxContribution (Except.ok { analyzer := a, report := repC10 }) = [] :=
  C10_missing_report_fields_safe subWitC10 (fun _ => Except.ok repC10) 0 repC10
    (by decide) rfl (Or.inl rfl)
